import Mathlib

set_option maxRecDepth 100000
set_option maxHeartbeats 1000000

/-
Shallow embedding of the Okta embedded-sign-in-widget sample
(src/identity-engine/embedded-sign-in-widget/main.go).

Modelling conventions:
- Go byte slices and the bytes of Go strings are `List Nat` with entries < 256.
- Effectful inputs are explicit parameters: the bytes drawn from crypto/rand,
  the identity provider's responses (token endpoint, userinfo endpoint), and
  the external okta-jwt-verifier library's verdict (a Boolean oracle on token
  strings).
- gorilla/sessions state is the decoded `session.Values` map, restricted to the
  keys this program uses.  A cookie-decode failure yields a fresh empty session
  (gorilla returns a new session alongside the error, and the handlers continue).
- `log.Fatalf` (which calls os.Exit) is modelled as the `processFatal` outcome;
  `fmt.Fprintln(w, ...)` followed by `return` is `wroteMessage`; `http.Redirect`
  is `redirect`.  When no `session.Save` runs before the handler ends, the
  persisted session is the request's incoming session (the cookie is unchanged).
-/

namespace OktaWidget

/-- Byte strings (Go byte slices / raw string bytes); entries are bytes < 256. -/
abbrev Bytes := List Nat

/-- Truncation to a 32-bit word, as Go uint32 arithmetic wraps. -/
def w32 (n : Nat) : Nat := n % 4294967296

/-- Rotate a 32-bit word right by n bits (for x < 2^32). -/
def rotr (n x : Nat) : Nat := w32 ((x >>> n) ||| (x <<< (32 - n)))

/-- Bitwise complement within 32 bits. -/
def bnot32 (x : Nat) : Nat := x ^^^ 4294967295

/-- SHA-256 round constants K0..K63 (FIPS 180-4, in decimal; the first is
0x428a2f98), as used by Go crypto/sha256. -/
def K : List Nat :=
  [1116352408, 1899447441, 3049323471, 3921009573, 961987163, 1508970993,
   2453635748, 2870763221, 3624381080, 310598401, 607225278, 1426881987,
   1925078388, 2162078206, 2614888103, 3248222580, 3835390401, 4022224774,
   264347078, 604807628, 770255983, 1249150122, 1555081692, 1996064986,
   2554220882, 2821834349, 2952996808, 3210313671, 3336571891, 3584528711,
   113926993, 338241895, 666307205, 773529912, 1294757372, 1396182291,
   1695183700, 1986661051, 2177026350, 2456956037, 2730485921, 2820302411,
   3259730800, 3345764771, 3516065817, 3600352804, 4094571909, 275423344,
   430227734, 506948616, 659060556, 883997877, 958139571, 1322822218,
   1537002063, 1747873779, 1955562222, 2024104815, 2227730452, 2361852424,
   2428436474, 2756734187, 3204031479, 3329325298]

/-- SHA-256 initial hash value H0..H7 (FIPS 180-4, in decimal; the first is
0x6a09e667). -/
def H0 : List Nat :=
  [1779033703, 3144134277, 1013904242, 2773480762,
   1359893119, 2600822924, 528734635, 1541459225]

/-- Word lookup with zero default (indices are always in range in use). -/
def wAt (l : List Nat) (i : Nat) : Nat := l.getD i 0

/-- SHA-256 small sigma 0. -/
def ssig0 (x : Nat) : Nat := rotr 7 x ^^^ rotr 18 x ^^^ (x >>> 3)

/-- SHA-256 small sigma 1. -/
def ssig1 (x : Nat) : Nat := rotr 17 x ^^^ rotr 19 x ^^^ (x >>> 10)

/-- SHA-256 big sigma 0. -/
def bsig0 (x : Nat) : Nat := rotr 2 x ^^^ rotr 13 x ^^^ rotr 22 x

/-- SHA-256 big sigma 1. -/
def bsig1 (x : Nat) : Nat := rotr 6 x ^^^ rotr 11 x ^^^ rotr 25 x

/-- Extend a 16-word block to the 64-word message schedule. -/
def extendW (ws : List Nat) : List Nat :=
  (List.range 48).foldl
    (fun acc _ =>
      let i := acc.length
      acc ++ [w32 (ssig1 (wAt acc (i - 2)) + wAt acc (i - 7) + ssig0 (wAt acc (i - 15)) + wAt acc (i - 16))])
    ws

/-- One SHA-256 compression round on the eight-word working state. -/
def roundFn (w k : Nat) (st : List Nat) : List Nat :=
  match st with
  | [a, b, c, d, e, f, g, h] =>
    let t1 := w32 (h + bsig1 e + ((e &&& f) ^^^ (bnot32 e &&& g)) + k + w)
    let t2 := w32 (bsig0 a + ((a &&& b) ^^^ (a &&& c) ^^^ (b &&& c)))
    [w32 (t1 + t2), a, b, c, w32 (d + t1), e, f, g]
  | other => other

/-- Process one 16-word block, updating the running hash. -/
def processBlock (hs : List Nat) (block : List Nat) : List Nat :=
  let ws := extendW block
  let st := (List.range 64).foldl (fun st t => roundFn (wAt ws t) (wAt K t) st) hs
  List.zipWith (fun x y => w32 (x + y)) hs st

/-- Big-endian byte encoding of v on n bytes. -/
def beBytes : Nat → Nat → Bytes
  | 0, _ => []
  | n + 1, v => beBytes n (v / 256) ++ [v % 256]

/-- Group bytes into big-endian 32-bit words (input length a multiple of 4). -/
def toWords : Bytes → List Nat
  | b0 :: b1 :: b2 :: b3 :: rest =>
    (((b0 % 256 * 256 + b1 % 256) * 256 + b2 % 256) * 256 + b3 % 256) :: toWords rest
  | _ => []

/-- Fold the running hash over consecutive 16-word blocks; the fuel argument
(one unit per word, more than enough since every step consumes 16) keeps the
recursion structural so that terms reduce definitionally. -/
def processWordsAux : Nat → List Nat → List Nat → List Nat
  | 0, hs, _ => hs
  | _ + 1, hs, [] => hs
  | fuel + 1, hs, w :: rest =>
    processWordsAux fuel (processBlock hs ((w :: rest).take 16)) (rest.drop 15)

/-- Fold the running hash over consecutive 16-word blocks. -/
def processWords (hs : List Nat) (ws : List Nat) : List Nat :=
  processWordsAux ws.length hs ws

/-- SHA-256 padding: 0x80, zeros to 56 mod 64, then the 64-bit bit length. -/
def padMsg (msg : Bytes) : Bytes :=
  msg ++ 128 :: List.replicate ((119 - msg.length % 64) % 64) 0 ++ beBytes 8 (8 * msg.length)

/-- SHA-256 digest (32 bytes) of a byte string; models Go crypto/sha256. -/
def sha256 (msg : Bytes) : Bytes :=
  (processWords H0 (toWords (padMsg msg))).foldr (fun w acc => beBytes 4 w ++ acc) []

/-- The base64url alphabet (RFC 4648 section 5), as ASCII codes. -/
def b64c (n : Nat) : Nat :=
  if n < 26 then 65 + n
  else if n < 52 then 97 + (n - 26)
  else if n < 62 then 48 + (n - 52)
  else if n = 62 then 45
  else 95

/-- Unpadded base64url encoding of bytes, as ASCII codes; models
Go base64.RawURLEncoding.EncodeToString. -/
def b64urlEncode : Bytes → Bytes
  | [] => []
  | [b1] => [b64c (b1 % 256 / 4), b64c (b1 % 4 * 16)]
  | [b1, b2] => [b64c (b1 % 256 / 4), b64c (b1 % 4 * 16 + b2 % 256 / 16), b64c (b2 % 16 * 4)]
  | b1 :: b2 :: b3 :: rest =>
    b64c (b1 % 256 / 4) :: b64c (b1 % 4 * 16 + b2 % 256 / 16) ::
      b64c (b2 % 16 * 4 + b3 % 256 / 64) :: b64c (b3 % 64) :: b64urlEncode rest

/-- View an ASCII byte string as a Lean string. -/
def bytesToString (bs : Bytes) : String := ⟨bs.map Char.ofNat⟩

/-- The bytes of an ASCII string (UTF-8 agrees with code points here). -/
def strBytes (s : String) : Bytes := s.data.map Char.toNat

/-- The PKCE record of main.go (type PKCE). -/
structure PKCE where
  CodeVerifier : String
  CodeChallenge : String
  CodeChallengeMethod : String
deriving DecidableEq, Repr

/-- createCodeVerifier of main.go: base64url-encode 86 random bytes.  The random
draw is the explicit randomBytes parameter. -/
def createCodeVerifier (randomBytes : Bytes) : String :=
  bytesToString (b64urlEncode randomBytes)

/-- createPKCEData of main.go: challenge is the unpadded base64url encoding of
the SHA-256 hash of the verifier string's bytes; method is S256. -/
def createPKCEData (randomBytes : Bytes) : PKCE :=
  let codeVerifier := createCodeVerifier randomBytes
  { CodeChallenge := bytesToString (b64urlEncode (sha256 (strBytes codeVerifier)))
    CodeVerifier := codeVerifier
    CodeChallengeMethod := "S256" }

/-- The process-wide state variable of main.go (var state = "ApplicationState").
It is assigned once and only ever read. -/
def state : String := "ApplicationState"

/-- The decoded gorilla session.Values map, restricted to the keys this program
reads or writes.  none models an absent key or a nil value; some "" models an
empty string value.  The key "pkceData" is carried because LoginHandler tests
it, even though no code path ever writes it. -/
structure SessionValues where
  pkceData : Option String
  pkce_code_verifier : Option String
  pkce_code_challenge : Option String
  pkce_code_challenge_method : Option String
  id_token : Option String
  access_token : Option String
deriving DecidableEq, Repr

/-- A brand-new session: no keys set (also what a cookie-decode failure yields). -/
def emptySession : SessionValues := ⟨none, none, none, none, none, none⟩

/-- Go pattern v != nil and v != "" for a session value. -/
def hasVal : Option String → Bool
  | none => false
  | some s => s != ""

/-- isAuthenticated of main.go: true iff the session's id_token is set and
non-empty (a session-decode error also yields false, via emptySession). -/
def isAuthenticated (sess : SessionValues) : Bool := hasVal sess.id_token

/-- The Exchange struct of main.go (the token endpoint's decoded JSON body);
omitted JSON fields decode to "" / 0. -/
structure Exchange where
  Error : String
  ErrorDescription : String
  AccessToken : String
  TokenType : String
  ExpiresIn : Nat
  Scope : String
  IdToken : String
deriving DecidableEq, Repr

/-- The possible outcomes of the token-endpoint POST inside the callback:
client.Do error, ioutil.ReadAll error, json.Unmarshal error, or a decoded body. -/
inductive TokenResp where
  | transportError
  | readError
  | unmarshalError
  | parsed (e : Exchange)
deriving DecidableEq, Repr

/-- How a handler invocation ends on the HTTP side.  wroteMessage models
fmt.Fprintln(w, msg) followed by return; processFatal models log.Fatalf
(which exits the whole process, writing nothing to the response); redirect
models http.Redirect. -/
inductive Outcome where
  | wroteMessage (msg : String)
  | processFatal (msg : String)
  | redirect (location : String)
deriving DecidableEq, Repr

/-- The observable result of LoginCallbackHandler: the HTTP outcome, the session
as persisted after the request (the incoming session when no Save ran), and
whether the token-exchange POST was performed. -/
structure CallbackResult where
  outcome : Outcome
  session : SessionValues
  exchanged : Bool
deriving DecidableEq, Repr

/-- The six-way nil-or-empty test on the stored PKCE values, exactly as in
LoginCallbackHandler lines 277-282. -/
def pkceMissing (sess : SessionValues) : Bool :=
  sess.pkce_code_verifier == none || sess.pkce_code_verifier == some "" ||
  sess.pkce_code_challenge == none || sess.pkce_code_challenge == some "" ||
  sess.pkce_code_challenge_method == none || sess.pkce_code_challenge_method == some ""

/-- LoginCallbackHandler of main.go.  qstate and interaction_code are the query
parameters ("" models an absent parameter, as url.Values.Get does); resp is the
token endpoint's response; verifyOk is the external okta-jwt-verifier verdict
(verifyToken succeeds iff the library accepts the token).  Notes kept from the
source: a session-decode error writes an http.Error but execution continues with
the fresh session gorilla returns (covered by the sess parameter); the response
Error field is never consulted; a session.Save error would also be log.Fatalf
(Save is modelled as always succeeding). -/
def LoginCallbackHandler (qstate interaction_code : String) (sess : SessionValues)
    (resp : TokenResp) (verifyOk : String → Bool) : CallbackResult :=
  if qstate != state then
    ⟨.wroteMessage "The state was not as expected", sess, false⟩
  else if interaction_code == "" then
    ⟨.wroteMessage "The interaction_code was not returned or is not accessible", sess, false⟩
  else if pkceMissing sess then
    ⟨.wroteMessage "Could not get PKCE Data from session", sess, false⟩
  else
    match resp with
    | .transportError => ⟨.processFatal "RESP ERROR", sess, true⟩
    | .readError => ⟨.processFatal "READ ERROR", sess, true⟩
    | .unmarshalError => ⟨.processFatal "UNMARSHAL ERROR", sess, true⟩
    | .parsed e =>
      if verifyOk e.IdToken then
        ⟨.redirect "/", { sess with id_token := some e.IdToken, access_token := some e.AccessToken }, true⟩
      else
        ⟨.processFatal "Verification Error", sess, true⟩

/-- LogoutHandler of main.go: delete id_token and access_token, save, redirect. -/
def LogoutHandler (sess : SessionValues) : SessionValues × Outcome :=
  ({ sess with id_token := none, access_token := none }, .redirect "/")

/-- The configuration record (config.Okta.IDX of main.go). -/
structure Config where
  ClientID : String
  ClientSecret : String
  Issuer : String
  Scopes : List String
  RedirectURI : String
deriving DecidableEq, Repr

/-- The customData the login template is rendered with (BaseUrl, a scheme/host
split of the issuer URL done by net/url, is outside the model). -/
structure LoginData where
  IsAuthenticated : Bool
  ClientId : String
  Issuer : String
  State : String
  Nonce : String
  InteractionHandle : String
  Pkce : PKCE
deriving DecidableEq, Repr

/-- Result of LoginHandler: the rendered data plus the session as persisted, or
a panic (a nil interface cast .(string) in the reuse branch). -/
inductive LoginResult where
  | panicked
  | ok (data : LoginData) (savedSession : SessionValues)
deriving DecidableEq, Repr

/-- LoginHandler of main.go.  randomBytes is the crypto/rand draw used for the
code verifier; nonceValue is the generated nonce; interactionHandle is what
getInteractionHandle returned ("" when that call failed, since the error is only
printed).  The branch condition tests the session key "pkceData" (which nothing
ever writes); only the else branch reads the stored pkce values back, via
.(string) casts that panic on a nil value. -/
def LoginHandler (cfg : Config) (sess : SessionValues) (randomBytes : Bytes)
    (nonceValue interactionHandle : String) : LoginResult :=
  if sess.pkceData == none || sess.pkceData == some "" then
    let p := createPKCEData randomBytes
    let sess2 := { sess with pkce_code_verifier := some p.CodeVerifier
                             pkce_code_challenge := some p.CodeChallenge
                             pkce_code_challenge_method := some p.CodeChallengeMethod }
    .ok { IsAuthenticated := isAuthenticated sess, ClientId := cfg.ClientID, Issuer := cfg.Issuer,
          State := state, Nonce := nonceValue, InteractionHandle := interactionHandle,
          Pkce := p } sess2
  else
    match sess.pkce_code_verifier, sess.pkce_code_challenge, sess.pkce_code_challenge_method with
    | some v, some c, some m =>
      .ok { IsAuthenticated := isAuthenticated sess, ClientId := cfg.ClientID, Issuer := cfg.Issuer,
            State := state, Nonce := nonceValue, InteractionHandle := interactionHandle,
            Pkce := ⟨v, c, m⟩ } sess
    | _, _, _ => .panicked

/-- The form data getInteractionHandle POSTs to the interact endpoint
(url.Values.Encode sorts keys; the claim only reads single keys, so an
association list suffices). -/
def interactForm (cfg : Config) (codeChallenge : String) : List (String × String) :=
  [("client_id", cfg.ClientID),
   ("scope", String.intercalate " " cfg.Scopes),
   ("code_challenge", codeChallenge),
   ("code_challenge_method", "S256"),
   ("redirect_uri", cfg.RedirectURI),
   ("state", state)]

/-- The userinfo endpoint call as seen by getProfileData: either client.Do
failed (resp is nil), or a body arrived with some HTTP status and either
decodes as a JSON string map or does not. -/
inductive UserinfoResp where
  | transportError
  | body (status : Nat) (decoded : Option (List (String × String)))
deriving DecidableEq, Repr

/-- What getProfileData does: return a map, or panic. -/
inductive ProfileResult where
  | panicked
  | ok (m : List (String × String))
deriving DecidableEq, Repr

/-- getProfileData of main.go.  sess is none when sessionStore.Get errored.
The client.Do error is discarded, so a transport failure leaves resp nil and
resp.Body panics; the HTTP status is never inspected; a json.Unmarshal error is
discarded, leaving the freshly made empty map. -/
def getProfileData (sess : Option SessionValues) (resp : UserinfoResp) : ProfileResult :=
  match sess with
  | none => .ok []
  | some s =>
    if s.access_token == none || s.access_token == some "" then .ok []
    else
      match resp with
      | .transportError => .panicked
      | .body _ none => .ok []
      | .body _ (some m) => .ok m

/-- One session transition performed by a session-writing handler, over
arbitrary provider behaviour.  HomeHandler and ProfileHandler never call
session.Save, so they induce no transition. -/
inductive Step : SessionValues → SessionValues → Prop where
  | login (cfg : Config) (rb : Bytes) (n ih : String) (d : LoginData)
      (s s2 : SessionValues)
      (h : LoginHandler cfg s rb n ih = .ok d s2) : Step s s2
  | callback (qs qc : String) (resp : TokenResp) (v : String → Bool)
      (s s2 : SessionValues)
      (h : (LoginCallbackHandler qs qc s resp v).session = s2) : Step s s2
  | logout (s s2 : SessionValues) (h : (LogoutHandler s).1 = s2) : Step s s2

/-- Session states reachable from a fresh browser through the public handlers. -/
def Reachable (s : SessionValues) : Prop :=
  Relation.ReflTransGen Step emptySession s

/-- A token-endpoint response whose access and identity tokens are both
non-empty or both empty (what a well-formed provider sends). -/
def pairedResp : TokenResp → Prop
  | .parsed e => (e.IdToken ≠ "" ∧ e.AccessToken ≠ "") ∨ (e.IdToken = "" ∧ e.AccessToken = "")
  | _ => True

/-- Like Step, but callback transitions only fire on paired responses. -/
inductive StepPaired : SessionValues → SessionValues → Prop where
  | login (cfg : Config) (rb : Bytes) (n ih : String) (d : LoginData)
      (s s2 : SessionValues)
      (h : LoginHandler cfg s rb n ih = .ok d s2) : StepPaired s s2
  | callback (qs qc : String) (resp : TokenResp) (v : String → Bool)
      (s s2 : SessionValues) (hp : pairedResp resp)
      (h : (LoginCallbackHandler qs qc s resp v).session = s2) : StepPaired s s2
  | logout (s s2 : SessionValues) (h : (LogoutHandler s).1 = s2) : StepPaired s s2

/-- Reachability when every token-endpoint response is paired. -/
def ReachablePaired (s : SessionValues) : Prop :=
  Relation.ReflTransGen StepPaired emptySession s

/-- The both-or-neither authentication invariant of the spec data model. -/
def authPaired (s : SessionValues) : Prop :=
  hasVal s.id_token = hasVal s.access_token

instance (s : SessionValues) : Decidable (authPaired s) :=
  instDecidableEqBool (hasVal s.id_token) (hasVal s.access_token)

/-- A concrete configuration for evaluating the handlers. -/
def cfg0 : Config :=
  ⟨"cid", "csecret", "https://issuer.example", ["openid", "profile"],
   "http://localhost:8080/login/callback"⟩

/-- A concrete crypto/rand draw: 86 zero bytes. -/
def rbZ : Bytes := List.replicate 86 0

/-- The PKCE material generated from rbZ. -/
def pkceZ : PKCE := createPKCEData rbZ

/-- The session after a first GET /login stored pkceZ. -/
def sess1 : SessionValues :=
  ⟨none, some pkceZ.CodeVerifier, some pkceZ.CodeChallenge, some pkceZ.CodeChallengeMethod,
   none, none⟩

/-- The login template data rendered by that first GET /login. -/
def data1 : LoginData := ⟨false, "cid", "https://issuer.example", state, "n0", "ih0", pkceZ⟩

/-- A token response carrying a verifiable id_token but an empty access_token. -/
def respUnpaired : TokenResp := .parsed ⟨"", "", "", "Bearer", 3600, "openid", "IDT"⟩

/-- A verifier oracle accepting exactly the token IDT. -/
def vIDT : String → Bool := fun t => t == "IDT"

/-- The partial session state the callback saves from respUnpaired. -/
def sess2 : SessionValues := { sess1 with id_token := some "IDT", access_token := some "" }

/-- A well-formed token response carrying both tokens. -/
def respPairedOk : TokenResp := .parsed ⟨"", "", "AT1", "Bearer", 3600, "openid", "IDT1"⟩

/-- A verifier oracle accepting exactly the token IDT1. -/
def vIDT1 : String → Bool := fun t => t == "IDT1"

/-- The authenticated session the callback saves from respPairedOk. -/
def sess3 : SessionValues := { sess1 with id_token := some "IDT1", access_token := some "AT1" }

/-- A session holding (arbitrary non-empty) stored PKCE material. -/
def sessP : SessionValues := ⟨none, some "v", some "c", some "S256", none, none⟩

/-- A token response whose body carries a non-empty error field alongside
tokens (the code never reads the Error field, so this distinguishes it). -/
def respError : Exchange :=
  ⟨"invalid_grant", "The interaction code is invalid or has expired.",
   "AT9", "Bearer", 3600, "openid", "IDT9"⟩

/-- A successful, error-free token response used for the PKCE-retention check. -/
def respOk3 : Exchange := ⟨"", "", "AT3", "Bearer", 3600, "openid", "IDT3"⟩

/-- A session that stored PKCE material at a previous /login render; the
pkceData key is none because no code path ever writes it. -/
def sessStored : SessionValues :=
  ⟨none, some "storedVerifier", some "storedChallenge", some "S256", none, none⟩

/-- An authenticated session for exercising the profile fetch. -/
def profSess : SessionValues := ⟨none, none, none, none, some "IDTp", some "ATp"⟩

/-- Helper: the length of an unpadded base64url encoding, closed form. -/
theorem b64urlEncode_length (bs : Bytes) :
    (b64urlEncode bs).length = (4 * bs.length + 2) / 3 := by
  induction bs using b64urlEncode.induct with
  | case1 => simp [b64urlEncode]
  | case2 b1 => simp [b64urlEncode]
  | case3 b1 b2 => simp [b64urlEncode]
  | case4 b1 b2 b3 rest ih =>
    simp [b64urlEncode, ih]
    omega

/-- Helper: every save the login handler can perform leaves the token fields of
the session untouched. -/
theorem login_preserves_tokens (cfg : Config) (s : SessionValues) (rb : Bytes)
    (n ih : String) (d : LoginData) (s2 : SessionValues)
    (h : LoginHandler cfg s rb n ih = .ok d s2) :
    s2.id_token = s.id_token ∧ s2.access_token = s.access_token := by
  unfold LoginHandler at h
  split at h
  · injection h with h1 h2
    subst h2
    exact ⟨rfl, rfl⟩
  · split at h
    · injection h with h1 h2
      subst h2
      exact ⟨rfl, rfl⟩
    · exact absurd h (by simp)

/-- Helper: the callback either leaves the persisted session unchanged or
stores exactly the response's id and access tokens into it. -/
theorem callback_session_cases (qs qc : String) (s : SessionValues) (resp : TokenResp)
    (v : String → Bool) :
    (LoginCallbackHandler qs qc s resp v).session = s ∨
    ∃ e, resp = .parsed e ∧ v e.IdToken = true ∧
      (LoginCallbackHandler qs qc s resp v).session =
        { s with id_token := some e.IdToken, access_token := some e.AccessToken } := by
  unfold LoginCallbackHandler
  split
  · exact Or.inl rfl
  · split
    · exact Or.inl rfl
    · split
      · exact Or.inl rfl
      · match resp with
        | .transportError => exact Or.inl rfl
        | .readError => exact Or.inl rfl
        | .unmarshalError => exact Or.inl rfl
        | .parsed e =>
          by_cases hv : v e.IdToken
          · exact Or.inr ⟨e, rfl, hv, by simp [hv]⟩
          · simp only [hv]
            exact Or.inl (by simp [hv])

/-- Helper: a state-parameter mismatch makes the callback return at its first
check, writing the rejection message, saving nothing, exchanging nothing. -/
theorem callback_state_mismatch (qs qc : String) (sess : SessionValues) (resp : TokenResp)
    (v : String → Bool) (h : qs ≠ state) :
    LoginCallbackHandler qs qc sess resp v =
      ⟨.wroteMessage "The state was not as expected", sess, false⟩ := by
  have hc : (qs != state) = true := by simpa [bne_iff_ne] using h
  simp [LoginCallbackHandler, hc]

/-- Helper: when the state parameter does match, no execution path of the
callback produces the state-mismatch message. -/
theorem callback_no_stateMsg_on_match (qc : String) (sess : SessionValues) (resp : TokenResp)
    (v : String → Bool) :
    (LoginCallbackHandler state qc sess resp v).outcome ≠
      .wroteMessage "The state was not as expected" := by
  unfold LoginCallbackHandler
  rw [bne_self_eq_false]
  simp only [Bool.false_eq_true, if_false]
  split
  · simp
  · split
    · simp
    · match resp with
      | .transportError => simp
      | .readError => simp
      | .unmarshalError => simp
      | .parsed e =>
        by_cases hv : v e.IdToken <;> simp [hv]

/-- C1: the claimed property fails on the code.  The callback never reads the
exchange response's Error field: on a body carrying a non-empty error alongside
a token the external verifier accepts, the handler stores both tokens in the
session and redirects, marking the session authenticated. -/
theorem tokenErrorFieldIgnoredAuthenticates :
    respError.Error ≠ "" ∧
    LoginCallbackHandler state "code1" sessP (.parsed respError) (fun t => t == "IDT9") =
      ⟨.redirect "/", { sessP with id_token := some "IDT9", access_token := some "AT9" }, true⟩ :=
  ⟨by decide, by decide⟩

/-- C2: a callback whose state query parameter differs from the process-wide
state value is rejected at the first check with the literal message, before the
token exchange, and the persisted session is exactly the incoming one — for
every interaction_code, session, provider response and verifier verdict. -/
theorem stateMismatchRejectsBeforeExchange (qs qc : String) (sess : SessionValues)
    (resp : TokenResp) (v : String → Bool) (h : qs ≠ state) :
    LoginCallbackHandler qs qc sess resp v =
      ⟨.wroteMessage "The state was not as expected", sess, false⟩ :=
  callback_state_mismatch qs qc sess resp v h

/-- Witness for C2 at a concrete input. -/
theorem stateMismatchRejectsBeforeExchangeInstance :
    ("WrongState" : String) ≠ state ∧
    LoginCallbackHandler "WrongState" "code2" sessP .transportError (fun t => t == "x") =
      ⟨.wroteMessage "The state was not as expected", sessP, false⟩ :=
  ⟨by decide,
   stateMismatchRejectsBeforeExchange "WrongState" "code2" sessP .transportError
     (fun t => t == "x") (by decide)⟩

/-- C3 counterexample: a callback that completes a successful token exchange
and verification leaves the stored PKCE material in the saved session — the
claimed removal does not happen at this concrete input. -/
theorem pkceRetainedAfterSuccessCex :
    (LoginCallbackHandler state "code3" sessP (.parsed respOk3) (fun t => t == "IDT3")).outcome =
      .redirect "/" ∧
    (LoginCallbackHandler state "code3" sessP
        (.parsed respOk3) (fun t => t == "IDT3")).session.pkce_code_verifier = some "v" ∧
    ("v" : String) ≠ "" :=
  ⟨by decide, by decide, by decide⟩

/-- C3 amended: after a successful token exchange and verification, the session
saved in the response retains the PKCE material unchanged (code verifier,
challenge and method are exactly the incoming ones); the handler only adds the
two token fields and redirects. -/
theorem pkceRetainedAfterSuccess (qc : String) (sess : SessionValues) (e : Exchange)
    (v : String → Bool) (h1 : qc ≠ "") (h2 : pkceMissing sess = false)
    (h3 : v e.IdToken = true) :
    LoginCallbackHandler state qc sess (.parsed e) v =
      ⟨.redirect "/", { sess with id_token := some e.IdToken, access_token := some e.AccessToken },
       true⟩ := by
  have hc : (qc == "") = false := by simp [h1]
  simp [LoginCallbackHandler, hc, h2, h3]

/-- Witness for the amended C3 at a concrete input. -/
theorem pkceRetainedAfterSuccessInstance :
    ("code3b" : String) ≠ "" ∧ pkceMissing sessP = false ∧
    (fun t => t == "IDT3") respOk3.IdToken = true ∧
    LoginCallbackHandler state "code3b" sessP (.parsed respOk3) (fun t => t == "IDT3") =
      ⟨.redirect "/",
       { sessP with id_token := some respOk3.IdToken, access_token := some respOk3.AccessToken },
       true⟩ :=
  ⟨by decide, by decide, by decide,
   pkceRetainedAfterSuccess "code3b" sessP respOk3 (fun t => t == "IDT3")
     (by decide) (by decide) (by decide)⟩

/-- C4: when the state matches and an interaction code is present but any of
the three stored PKCE values is absent or empty, the callback rejects with the
literal message before the token exchange, and the persisted session is exactly
the incoming one — for every response and verifier verdict. -/
theorem missingPkceRejectsBeforeExchange (qc : String) (sess : SessionValues)
    (resp : TokenResp) (v : String → Bool) (h1 : qc ≠ "") (h2 : pkceMissing sess = true) :
    LoginCallbackHandler state qc sess resp v =
      ⟨.wroteMessage "Could not get PKCE Data from session", sess, false⟩ := by
  have hc : (qc == "") = false := by simp [h1]
  simp [LoginCallbackHandler, hc, h2]

/-- Witness for C4 at a concrete input. -/
theorem missingPkceRejectsBeforeExchangeInstance :
    ("code4" : String) ≠ "" ∧ pkceMissing emptySession = true ∧
    LoginCallbackHandler state "code4" emptySession (.parsed respOk3) (fun t => t == "IDT3") =
      ⟨.wroteMessage "Could not get PKCE Data from session", emptySession, false⟩ :=
  ⟨by decide, by decide,
   missingPkceRejectsBeforeExchange "code4" emptySession (.parsed respOk3)
     (fun t => t == "IDT3") (by decide) (by decide)⟩

/-- C5: for every 86-byte random draw, the generated PKCE material's challenge
is the unpadded base64url encoding of the SHA-256 hash of the code verifier,
and the code verifier — the base64url encoding of the draw — is between 43 and
128 characters long (it is always 115). -/
theorem pkceChallengeAndVerifierLength (rb : Bytes) (h : rb.length = 86) :
    (createPKCEData rb).CodeChallenge =
      bytesToString (b64urlEncode (sha256 (strBytes (createPKCEData rb).CodeVerifier))) ∧
    43 ≤ (createPKCEData rb).CodeVerifier.length ∧
    (createPKCEData rb).CodeVerifier.length ≤ 128 := by
  have hl : (createPKCEData rb).CodeVerifier.length = 115 := by
    show (bytesToString (b64urlEncode rb)).length = 115
    rw [show (bytesToString (b64urlEncode rb)).length =
          ((b64urlEncode rb).map Char.ofNat).length from rfl,
        List.length_map, b64urlEncode_length, h]
  exact ⟨rfl, by omega, by omega⟩

/-- Witness for C5 at the concrete draw rbZ. -/
theorem pkceChallengeAndVerifierLengthInstance :
    rbZ.length = 86 ∧
    43 ≤ (createPKCEData rbZ).CodeVerifier.length ∧
    (createPKCEData rbZ).CodeVerifier.length ≤ 128 :=
  ⟨by decide, (pkceChallengeAndVerifierLength rbZ (by decide)).2⟩

/-- C6 counterexample: at a concrete callback whose token-exchange transport
fails, the handler does not write a per-request failure message — it aborts the
whole process (log.Fatalf), contradicting the claim that such a failure is
fatal to that request only. -/
theorem exchangeFailureAbortsProcessCex :
    (LoginCallbackHandler state "code6" sessP .transportError (fun t => t == "z")).outcome =
      .processFatal "RESP ERROR" :=
  by decide

/-- C6 amended: every token-exchange or verification failure on the callback
(transport error, unreadable body, unparsable body, rejected token) aborts the
entire process via log.Fatalf; nothing is written to the response, there is no
redirect, and the session cookie is never saved (the persisted session is the
incoming one). -/
theorem exchangeFailureAbortsProcess (qc : String) (sess : SessionValues)
    (v : String → Bool) (e : Exchange) (h1 : qc ≠ "") (h2 : pkceMissing sess = false) :
    LoginCallbackHandler state qc sess .transportError v =
      ⟨.processFatal "RESP ERROR", sess, true⟩ ∧
    LoginCallbackHandler state qc sess .readError v =
      ⟨.processFatal "READ ERROR", sess, true⟩ ∧
    LoginCallbackHandler state qc sess .unmarshalError v =
      ⟨.processFatal "UNMARSHAL ERROR", sess, true⟩ ∧
    (v e.IdToken = false →
      LoginCallbackHandler state qc sess (.parsed e) v =
        ⟨.processFatal "Verification Error", sess, true⟩) := by
  have hc : (qc == "") = false := by simp [h1]
  refine ⟨?_, ?_, ?_, fun hv => ?_⟩ <;> simp [LoginCallbackHandler, hc, h2, *]

/-- Witness for the amended C6 at a concrete input. -/
theorem exchangeFailureAbortsProcessInstance :
    ("code6b" : String) ≠ "" ∧ pkceMissing sessP = false ∧
    LoginCallbackHandler state "code6b" sessP (.parsed respOk3) (fun _ => false) =
      ⟨.processFatal "Verification Error", sessP, true⟩ :=
  ⟨by decide, by decide,
   (exchangeFailureAbortsProcess "code6b" sessP (fun _ => false) respOk3
     (by decide) (by decide)).2.2.2 rfl⟩

/-- C7 counterexample: with a stored access token, a transport failure of the
userinfo request makes getProfileData dereference the nil response and panic —
it does not return the claimed empty mapping. -/
theorem profileTransportErrorPanics :
    getProfileData (some profSess) .transportError = .panicked ∧
    ProfileResult.panicked ≠ .ok [] :=
  ⟨by decide, by decide⟩

/-- C7 amended: the profile fetch returns an empty mapping when the session
fails to decode, when the access token is absent or empty, and when the
response body does not decode as a JSON string map; but a transport error makes
it panic, and the HTTP status is never inspected — a non-2xx response's decoded
body is returned as if it were profile data. -/
theorem profileFailureEmptyCases (s s2 s3 : SessionValues) (resp : UserinfoResp)
    (st st2 : Nat) (m : List (String × String))
    (h : s.access_token = none ∨ s.access_token = some "")
    (h3 : hasVal s3.access_token = true) :
    getProfileData none resp = .ok [] ∧
    getProfileData (some s) resp = .ok [] ∧
    getProfileData (some s2) (.body st none) = .ok [] ∧
    getProfileData (some s3) (.body st2 (some m)) = .ok m := by
  refine ⟨rfl, ?_, ?_, ?_⟩
  · have hc : (s.access_token == none || s.access_token == some "") = true := by
      rcases h with h | h <;> simp [h]
    simp [getProfileData, hc]
  · have hrw : getProfileData (some s2) (.body st none) =
        if s2.access_token == none || s2.access_token == some "" then ProfileResult.ok []
        else ProfileResult.ok [] := rfl
    rw [hrw, ite_self]
  · have hc : (s3.access_token == none || s3.access_token == some "") = false := by
      unfold hasVal at h3
      match hx : s3.access_token with
      | none => rw [hx] at h3; exact absurd h3 (by simp)
      | some t => rw [hx] at h3; simp_all [bne_iff_ne]
    simp [getProfileData, hc]

/-- Witness for the amended C7 at concrete inputs. -/
theorem profileFailureEmptyCasesInstance :
    (emptySession.access_token = none ∨ emptySession.access_token = some "") ∧
    hasVal profSess.access_token = true ∧
    getProfileData none (.body 401 (some [("error", "x")])) = .ok [] ∧
    getProfileData (some emptySession) (.body 401 (some [("error", "x")])) = .ok [] ∧
    getProfileData (some sessP) (.body 500 none) = .ok [] ∧
    getProfileData (some profSess) (.body 401 (some [("error", "x")])) = .ok [("error", "x")] :=
  ⟨by decide, by decide,
   (profileFailureEmptyCases emptySession sessP profSess (.body 401 (some [("error", "x")]))
     500 401 [("error", "x")] (by decide) (by decide))⟩

/-- C8: the claimed reuse of stored PKCE material fails on the code.  The reuse
branch tests the session key pkceData, which no code path ever writes, so on a
session already holding stored PKCE values the handler regenerates fresh
material and overwrites all three stored values. -/
theorem loginAlwaysRegeneratesPkce :
    LoginHandler cfg0 sessStored rbZ "n8" "ih8" =
      .ok ⟨false, "cid", "https://issuer.example", state, "n8", "ih8", pkceZ⟩
        ⟨none, some pkceZ.CodeVerifier, some pkceZ.CodeChallenge,
         some pkceZ.CodeChallengeMethod, none, none⟩ ∧
    pkceZ.CodeVerifier ≠ "storedVerifier" :=
  ⟨by decide, by decide⟩

/-- C9 counterexample: a session state with a non-empty identityToken and an
empty accessToken is reachable through the public handlers (login, then a
callback whose verified response lacks an access token), so the claimed
both-or-neither invariant fails. -/
theorem unpairedAuthReachable : Reachable sess2 ∧ ¬ authPaired sess2 := by
  constructor
  · have h1 : Step emptySession sess1 :=
      Step.login cfg0 rbZ "n0" "ih0" data1 emptySession sess1 (by decide)
    have h2 : Step sess1 sess2 :=
      Step.callback state "code9" respUnpaired vIDT sess1 sess2 (by decide)
    exact Relation.ReflTransGen.tail (Relation.ReflTransGen.single h1) h2
  · decide

/-- C9 amended: provided every token-endpoint response carries identity and
access tokens that are both non-empty or both empty (as a well-formed provider
does), every session state reachable through the public handlers has its
identityToken and accessToken both present-and-non-empty or both absent/empty. -/
theorem authPairedUnderPairedResponses (s : SessionValues) (h : ReachablePaired s) :
    authPaired s := by
  induction h with
  | refl => rfl
  | tail hr hs ih =>
    rename_i b c
    cases hs with
    | login cfg rb n ih2 d sx s2x hEq =>
      obtain ⟨h1, h2⟩ := login_preserves_tokens cfg b rb n ih2 d c hEq
      unfold authPaired at *
      rw [h1, h2]
      exact ih
    | callback qs qc resp v sx s2x hp hEq =>
      rcases callback_session_cases qs qc b resp v with hcase | ⟨e, hresp, hv, hcase⟩
      · rw [hcase] at hEq
        rw [← hEq]
        exact ih
      · rw [hcase] at hEq
        rw [← hEq]
        subst hresp
        simp only [pairedResp] at hp
        rcases hp with ⟨hi, ha⟩ | ⟨hi, ha⟩
        · have hb1 : (e.IdToken != "") = true := by simpa [bne_iff_ne] using hi
          have hb2 : (e.AccessToken != "") = true := by simpa [bne_iff_ne] using ha
          show (e.IdToken != "") = (e.AccessToken != "")
          rw [hb1, hb2]
        · show (e.IdToken != "") = (e.AccessToken != "")
          rw [hi, ha]
    | logout sx s2x hEq =>
      rw [← hEq]
      rfl

/-- Witness for the amended C9: a concrete two-step paired flow ends paired. -/
theorem authPairedUnderPairedResponsesInstance : authPaired sess3 := by
  have h1 : StepPaired emptySession sess1 :=
    StepPaired.login cfg0 rbZ "n0" "ih0" data1 emptySession sess1 (by decide)
  have hp : pairedResp respPairedOk := Or.inl ⟨by decide, by decide⟩
  have h2 : StepPaired sess1 sess3 :=
    StepPaired.callback state "codeW" respPairedOk vIDT1 sess1 sess3 hp (by decide)
  exact authPairedUnderPairedResponses sess3
    (Relation.ReflTransGen.tail (Relation.ReflTransGen.single h1) h2)

/-- C10: the OAuth state value is the single process-wide constant
ApplicationState — every login render embeds it for every session and
configuration, the interact request always posts it, and the callback's
rejection message appears exactly when the state query parameter differs from
that constant, regardless of the session served. -/
theorem stateIsGlobalConstant :
    state = "ApplicationState" ∧
    (∀ cfg sess rb n ih d s2, LoginHandler cfg sess rb n ih = .ok d s2 →
      d.State = "ApplicationState") ∧
    (∀ cfg cc, (interactForm cfg cc).lookup "state" = some "ApplicationState") ∧
    (∀ qs qc sess resp v,
      (LoginCallbackHandler qs qc sess resp v).outcome =
          .wroteMessage "The state was not as expected" ↔ qs ≠ "ApplicationState") := by
  refine ⟨rfl, ?_, ?_, ?_⟩
  · intro cfg sess rb n ih d s2 h
    unfold LoginHandler at h
    split at h
    · injection h with h1 h2
      rw [← h1]
      rfl
    · split at h
      · injection h with h1 h2
        rw [← h1]
        rfl
      · exact absurd h (by simp)
  · intro cfg cc
    rfl
  · intro qs qc sess resp v
    constructor
    · intro h hq
      subst hq
      exact callback_no_stateMsg_on_match qc sess resp v h
    · intro hq
      rw [callback_state_mismatch qs qc sess resp v hq]

/-- Witness for C10 at a concrete mismatching callback. -/
theorem stateIsGlobalConstantInstance :
    (LoginCallbackHandler "WrongState10" "c10" emptySession .transportError
        (fun t => t == "q")).outcome = .wroteMessage "The state was not as expected" :=
  (stateIsGlobalConstant.2.2.2 "WrongState10" "c10" emptySession .transportError
    (fun t => t == "q")).mpr (by decide)

end OktaWidget
